import Mathlib

/-!
# Verification of the AirIQ travel-API session manager and dispatcher

Shallow embedding of the token-lifecycle / request-dispatch code of the
repository (files `airiq_client.py`, `config.py`, `test_cairiq.py`), together
with theorems settling the specification claims about it.

Conventions of the embedding:
* Python strings are `String`, optional values (`None`) are `Option`.
* Timestamps are `Nat`, measured in microseconds; `datetime.now()` becomes an
  explicit `now : Nat` argument threaded through each operation.
* Python truthiness of a possibly-absent string (`if not self.token:`) is
  `truthy`: `None` and the empty string are falsy, everything else truthy.
* Network effects are reified: each modelled operation returns the list of
  outbound HTTP calls it issues (`NetCall`), and takes the responses the
  network would give as explicit oracle arguments.
* A Python exception escaping a function is `Except.error` with a `PyErr`
  naming the exception class.
-/

namespace AirIQ

/-- Python truthiness of an optional string: `None` and `""` are falsy
(this is what `if not self.token:` tests). -/
def truthy : Option String → Bool
  | none => false
  | some s => !(s == "")

/-- Python `str.upper()` (ASCII case mapping on each character; the station
and cabin codes this is applied to are ASCII). -/
def pyUpper (s : String) : String := ⟨s.data.map Char.toUpper⟩

/-- Microseconds per second. -/
def usPerSecond : Nat := 1000000

/-- Microseconds per day. -/
def usPerDay : Nat := 86400000000

/-- `datetime.now().replace(hour=23, minute=59, second=59)`: keep the day and
the microsecond field of `t`, set the time of day to 23:59:59. -/
def endOfDay (t : Nat) : Nat :=
  (t / usPerDay) * usPerDay + 86399 * usPerSecond + t % usPerSecond

/-- Python exception classes that can escape the modelled functions. -/
inductive PyErr
  | attributeError   -- AttributeError
  | valueError       -- ValueError
  | typeError        -- TypeError
  | httpError        -- requests.exceptions.HTTPError (raise_for_status)
  | jsonError        -- json.JSONDecodeError from Response.json()
  | netError         -- requests.exceptions.RequestException
  | loginFailed      -- the bare Exception raised by AirIQClient._login
  deriving DecidableEq, Repr

/-- JSON value appearing in a request payload field (enough to distinguish the
string `"1"` from the integer `1`). -/
inductive JVal
  | str (s : String)
  | int (n : Int)
  deriving DecidableEq, Repr

/-- The availability request body built by `AirIQClient.availability` and by
`TravelAPIClient.search_availability` (the constant `AgentInfo.AppType` and
`AgentInfo.Version` fields are omitted: they are fixed literals referenced by
no claim). -/
structure AvailPayload where
  agentId : String
  userName : String
  tripType : String
  departureStation : String
  arrivalStation : String
  flightDate : String
  farecabinOption : String
  fareType : String
  onlyDirectFlight : Bool
  adultCount : JVal
  childCount : JVal
  infantCount : JVal
  deriving DecidableEq, Repr

/-- One outbound HTTP call, as issued by the modelled code: either the login
POST, or a data POST carrying an `Authorization` header value and (for the
availability operation) its JSON body. -/
inductive NetCall
  | login
  | post (endpointSuffix : String) (auth : String) (body : Option AvailPayload)
  deriving DecidableEq, Repr

/-- Count of login calls in a network trace. -/
def loginCount (cs : List NetCall) : Nat :=
  cs.countP (fun c => match c with | .login => true | _ => false)

/-- Count of data (non-login) calls in a network trace. -/
def dataCount (cs : List NetCall) : Nat :=
  cs.countP (fun c => match c with | .post _ _ _ => true | _ => false)

/-! ## TravelAPIClient (`test_cairiq.py`) -/

/-- The mutable session state of `TravelAPIClient`: `self.token` and
`self.token_expiry`. -/
structure TState where
  token : Option String
  token_expiry : Option Nat
  deriving DecidableEq, Repr

/-- `TravelAPIClient.is_token_valid`: no token (falsy) → invalid; an expiry in
the past (now ≥ expiry) → invalid; otherwise valid. A `None` expiry with a
token present counts as valid (`if self.token_expiry and ...` short-circuits).
-/
def is_token_valid (st : TState) (now : Nat) : Bool :=
  if !truthy st.token then false
  else
    match st.token_expiry with
    | some e => if now ≥ e then false else true
    | none => true

/-- The fields of the parsed login response body that the clients read:
`data.get('Status', {}).get('ResultCode')` and `data.get('Token')`. -/
structure LoginJson where
  resultCode : Option String
  token : Option String
  deriving DecidableEq, Repr

/-- Outcome of the login POST as seen by the client: a transport-level
response with a status code and a body (`none` when `Response.json()` would
raise `JSONDecodeError`), or a `requests` exception. -/
inductive LoginOutcome
  | resp (status : Nat) (body : Option LoginJson)
  | netError
  deriving DecidableEq, Repr

/-- Result of `TravelAPIClient.authenticate`: the returned boolean and the
session state after the call (the method catches every exception, so it is
total). -/
structure AuthResult where
  ok : Bool
  state : TState
  deriving DecidableEq, Repr

/-- `TravelAPIClient.authenticate` at time `now`, with login response `r`.
Mirrors the source: HTTP 200 → parse JSON → `Status.ResultCode == '1'` →
assign `self.token = data.get('Token')` → if the token is truthy, set the
end-of-day expiry and return True; every other path returns False. Note the
assignment to `self.token` happens before the truthiness check. -/
def authenticate (st : TState) (now : Nat) (r : LoginOutcome) : AuthResult :=
  match r with
  | .netError => ⟨false, st⟩
  | .resp status body =>
    if status == 200 then
      match body with
      | none => ⟨false, st⟩
      | some data =>
        if data.resultCode == some "1" then
          let st1 : TState := { st with token := data.token }
          if truthy data.token then
            ⟨true, { st1 with token_expiry := some (endOfDay now) }⟩
          else
            ⟨false, st1⟩
        else ⟨false, st⟩
    else ⟨false, st⟩

/-- Result of an operation that yields a boolean, a session state and a
network trace (`ensure_authenticated`, `set_token_manually`). -/
structure EnsureResult where
  ok : Bool
  state : TState
  calls : List NetCall
  deriving DecidableEq, Repr

/-- `TravelAPIClient.set_token_manually`: overwrite the token, set expiry to
end of day, return True. Issues no network call (the `_save_token` side
effect is a local file write, not an HTTP request). -/
def set_token_manually (now : Nat) (token : String) : EnsureResult :=
  ⟨true, ⟨some token, some (endOfDay now)⟩, []⟩

/-- `TravelAPIClient.ensure_authenticated`: authenticate only when the token
is absent (falsy) or the recorded expiry has passed; otherwise keep the
cached token and issue no network call. -/
def ensure_authenticated (st : TState) (now : Nat) (r : LoginOutcome) :
    EnsureResult :=
  if !truthy st.token then
    let a := authenticate st now r
    ⟨a.ok, a.state, [.login]⟩
  else
    match st.token_expiry with
    | some e =>
      if now ≥ e then
        let a := authenticate st now r
        ⟨a.ok, a.state, [.login]⟩
      else ⟨true, st, []⟩
    | none => ⟨true, st, []⟩

/-- A data-call response as classified by the dispatcher: the HTTP status and
whether `'token was timed out'` occurs in the lowercased body. -/
structure DataResp where
  status : Nat
  timedOut : Bool
  deriving DecidableEq, Repr

/-- Outcome of one data POST: a response, or a `requests` exception. -/
inductive DataOutcome
  | resp (r : DataResp)
  | netError
  deriving DecidableEq, Repr

/-- The dispatcher's authorization-failure test:
`response.status_code == 401 or 'token was timed out' in response.text.lower()`. -/
def isAuthFailResp (r : DataResp) : Bool :=
  r.status == 401 || r.timedOut

/-- Result of `make_authenticated_request`: the response returned to the
caller (`none` when the method returns `None`), the session state afterwards,
and the full network trace. -/
structure DispatchResult where
  result : Option DataResp
  state : TState
  calls : List NetCall
  deriving DecidableEq, Repr

/-- `TravelAPIClient.make_authenticated_request` at time `now`: ensure a
token (possibly one login, with response `lr`), then POST with the raw token
as the `Authorization` value (first data outcome `r1`); on a 401 / timed-out
body, retry once with `'Bearer ' + self.token` (second data outcome `r2`) and
return that second response whether or not it succeeded. The session is never
invalidated and no re-login happens in the retry. The GET/POST distinction is
dropped (both branches issue the same call up to the HTTP verb). -/
def make_authenticated_request (st : TState) (now : Nat) (lr : LoginOutcome)
    (endpointSuffix : String) (body : Option AvailPayload)
    (r1 r2 : DataOutcome) : DispatchResult :=
  let e := ensure_authenticated st now lr
  if !e.ok then ⟨none, e.state, e.calls⟩
  else
    let tok := e.state.token.getD ""
    let c1 : NetCall := .post endpointSuffix tok body
    match r1 with
    | .netError => ⟨none, e.state, e.calls ++ [c1]⟩
    | .resp x =>
      if isAuthFailResp x then
        let c2 : NetCall := .post endpointSuffix ("Bearer " ++ tok) body
        match r2 with
        | .netError => ⟨none, e.state, e.calls ++ [c1, c2]⟩
        | .resp y => ⟨some y, e.state, e.calls ++ [c1, c2]⟩
      else ⟨some x, e.state, e.calls ++ [c1]⟩

/-- `TravelAPIClient.search_availability`: build the availability payload
(stations, cabin and fare type uppercased; the flight date passed through as
the caller's string; passenger counts stringified with `str(...)`) and hand
it to `make_authenticated_request('/Availability', 'POST', data=payload)`. -/
def search_availability (st : TState) (now : Nat) (lr : LoginOutcome)
    (agentId userName : String)
    (departureStation arrivalStation flightDate : String)
    (tripType cabin fareType : String) (directOnly : Bool)
    (adultCount childCount infantCount : Int)
    (r1 r2 : DataOutcome) : DispatchResult :=
  let payload : AvailPayload :=
    { agentId := agentId
      userName := userName
      tripType := tripType
      departureStation := pyUpper departureStation
      arrivalStation := pyUpper arrivalStation
      flightDate := flightDate
      farecabinOption := pyUpper cabin
      fareType := pyUpper fareType
      onlyDirectFlight := directOnly
      adultCount := .str (toString adultCount)
      childCount := .str (toString childCount)
      infantCount := .str (toString infantCount) }
  make_authenticated_request st now lr "/Availability" (some payload) r1 r2

/-! ## Token file persistence (`TravelAPIClient._load_token`) -/

/-- The fixed token cache path used by `TravelAPIClient`. -/
def token_file : String := "/tmp/travel_api_token.json"

/-- The `expiry` string stored in the token file, classified by what
`datetime.fromisoformat` does with it: either it parses to a timestamp, or it
raises `ValueError`. -/
inductive ExpiryStr
  | iso (t : Nat)
  | malformed
  deriving DecidableEq, Repr

/-- The fields `_load_token` reads from the decoded token file. -/
structure TokenData where
  agent_id : Option String
  token : Option String
  expiry : Option ExpiryStr
  deriving DecidableEq, Repr

/-- The state of the token file at construction time: absent
(`FileNotFoundError`), unparseable (`json.JSONDecodeError`), valid JSON whose
top level is not an object (so `.get` raises `AttributeError`), or a JSON
object. -/
inductive FileState
  | missing
  | badJson
  | nonObject
  | object (d : TokenData)
  deriving DecidableEq, Repr

/-- Result of `_load_token` (run from `__init__` with `self.token` and
`self.token_expiry` both `None`): either the constructor completes with the
resulting session fields, or an uncaught exception escapes `__init__`. -/
def load_token (fs : FileState) (agent : String) (now : Nat) :
    Except PyErr TState :=
  match fs with
  | .missing => .ok ⟨none, none⟩      -- FileNotFoundError: caught, fields stay None
  | .badJson => .ok ⟨none, none⟩      -- JSONDecodeError: caught, fields stay None
  | .nonObject => .error .attributeError  -- token_data.get on a non-dict: uncaught
  | .object d =>
    if d.agent_id == some agent then
      match d.expiry with
      | some .malformed => .error .valueError  -- fromisoformat raises: uncaught
      | some (.iso e) =>
        let st : TState := ⟨d.token, some e⟩
        if is_token_valid st now then .ok st else .ok ⟨none, none⟩
      | none =>
        let st : TState := ⟨d.token, none⟩
        if is_token_valid st now then .ok st else .ok ⟨none, none⟩
    else .ok ⟨none, none⟩             -- different agent: fields stay None

/-! ## Config (`config.py`) and AirIQClient construction (`airiq_client.py`) -/

/-- The process environment variables `Config` reads. -/
structure Env where
  secretKey : Option String
  apiBaseUrl : Option String
  agentId : Option String
  apiUsername : Option String
  apiPassword : Option String
  deriving DecidableEq, Repr

/-- The class attributes the `Config` class defines (each bound to
`os.environ.get(...)`). -/
def configAttrs : List String :=
  ["SECRET_KEY", "API_BASE_URL", "AGENT_ID", "API_USERNAME", "API_PASSWORD"]

/-- Python attribute lookup `Config.<name>`: the bound environment value for
a defined attribute, `AttributeError` otherwise. -/
def configGetAttr (env : Env) (name : String) : Except PyErr (Option String) :=
  if name = "SECRET_KEY" then .ok env.secretKey
  else if name = "API_BASE_URL" then .ok env.apiBaseUrl
  else if name = "AGENT_ID" then .ok env.agentId
  else if name = "API_USERNAME" then .ok env.apiUsername
  else if name = "API_PASSWORD" then .ok env.apiPassword
  else .error .attributeError

/-- The state of an `AirIQClient` instance. -/
structure AState where
  base_url : String
  agent_id : Option String
  username : Option String
  password : Option String
  hardcoded_token : Option String
  token : Option String
  token_expiry : Option Nat
  deriving DecidableEq, Repr

/-- Python `str.rstrip("/")` on an optional value: `AttributeError` on `None`.
The actual stripping of trailing slashes is irrelevant to the claims and
modelled as the identity on the string. -/
def rstripSlash : Option String → Except PyErr String
  | none => .error .attributeError
  | some s => .ok s

/-- `AirIQClient.__init__`: read the five `Config` attributes in source
order. The read of `Config.HARDCODED_TOKEN` hits an attribute the `Config`
class never defines. -/
def airIQInit (env : Env) : Except PyErr AState := do
  let baseOpt ← configGetAttr env "API_BASE_URL"
  let base ← rstripSlash baseOpt
  let agent ← configGetAttr env "AGENT_ID"
  let user ← configGetAttr env "API_USERNAME"
  let pass ← configGetAttr env "API_PASSWORD"
  let hard ← configGetAttr env "HARDCODED_TOKEN"
  .ok ⟨base, agent, user, pass, hard, none, none⟩

/-! ## AirIQClient session and availability (`airiq_client.py`) -/

/-- Result of `AirIQClient._login` / `_get_token`: the returned token (or the
escaping exception), the state afterwards, and the network trace. -/
structure TokenRes where
  outcome : Except PyErr String
  state : AState
  calls : List NetCall
  deriving Repr

/-- `AirIQClient._login` at time `now` with login response `r`: if a
hardcoded token is set (truthy), return it with no network call; otherwise
POST to `/Login`, `raise_for_status`, parse JSON, and require a truthy
`Token` field (the `Status` indicator is never examined); cache the token
with a 15-minute expiry. -/
def airLogin (st : AState) (now : Nat) (r : LoginOutcome) : TokenRes :=
  if truthy st.hardcoded_token then
    ⟨.ok (st.hardcoded_token.getD ""), st, []⟩
  else
    match r with
    | .netError => ⟨.error .netError, st, [.login]⟩
    | .resp status body =>
      if status ≥ 400 then ⟨.error .httpError, st, [.login]⟩
      else
        match body with
        | none => ⟨.error .jsonError, st, [.login]⟩
        | some j =>
          if truthy j.token then
            let tok := j.token.getD ""
            ⟨.ok tok,
             { st with token := some tok,
                       token_expiry := some (now + 900 * usPerSecond) },
             [.login]⟩
          else ⟨.error .loginFailed, st, [.login]⟩

/-- `AirIQClient._get_token` at time `now`: hardcoded token if truthy; else
re-login when the cached token is falsy or `now >= token_expiry`; comparing
against a `None` expiry raises `TypeError` (Python cannot order a datetime
against `None`); otherwise return the cached token with no network call. -/
def airGetToken (st : AState) (now : Nat) (r : LoginOutcome) : TokenRes :=
  if truthy st.hardcoded_token then
    ⟨.ok (st.hardcoded_token.getD ""), st, []⟩
  else if !truthy st.token then airLogin st now r
  else
    match st.token_expiry with
    | none => ⟨.error .typeError, st, []⟩
    | some e =>
      if now ≥ e then airLogin st now r
      else ⟨.ok (st.token.getD ""), st, []⟩

/-- Zero-padded two-digit decimal rendering (`%m`, `%d`). Python `datetime`
months and days lie in 1..31, so fixed-width digit extraction renders them
exactly. -/
def pad2 (n : Nat) : String :=
  ⟨[Nat.digitChar (n / 10 % 10), Nat.digitChar (n % 10)]⟩

/-- Zero-padded four-digit decimal rendering (`%Y`). Python `datetime` years
lie in 1..9999 (`datetime.MAXYEAR`), so fixed-width digit extraction renders
them exactly. -/
def pad4 (n : Nat) : String :=
  ⟨[Nat.digitChar (n / 1000 % 10), Nat.digitChar (n / 100 % 10),
    Nat.digitChar (n / 10 % 10), Nat.digitChar (n % 10)]⟩

/-- `date.strftime("%Y%m%d")` for the calendar date `y-m-d`. -/
def strftimeYmd (y m d : Nat) : String :=
  pad4 y ++ pad2 m ++ pad2 d

/-- Result of `AirIQClient.availability`: the returned parsed body or the
escaping exception, the state afterwards, and the network trace. -/
structure AvailRes where
  outcome : Except PyErr DataResp
  state : AState
  calls : List NetCall
  deriving Repr

/-- `AirIQClient.availability(origin, destination, date, adults)` at time
`now`: obtain a token via `_get_token` (login response `lr`), build the
payload verbatim from the arguments (no validation, no case normalization;
`AdultCount` is the Python integer `adults`), and POST it to `/Availability`
with the raw token as the `Authorization` value. `dr` is the data response;
`raise_for_status` turns a ≥400 status into an exception. -/
def availability (st : AState) (now : Nat) (lr : LoginOutcome)
    (origin destination : String) (y m d : Nat) (adults : Int)
    (dr : DataOutcome) : AvailRes :=
  match airGetToken st now lr with
  | ⟨.error e, st1, cs⟩ => ⟨.error e, st1, cs⟩
  | ⟨.ok tok, st1, cs⟩ =>
    let payload : AvailPayload :=
      { agentId := st1.agent_id.getD ""
        userName := st1.username.getD ""
        tripType := "O"
        departureStation := origin
        arrivalStation := destination
        flightDate := strftimeYmd y m d
        farecabinOption := "E"
        fareType := "N"
        onlyDirectFlight := false
        adultCount := .int adults
        childCount := .int 0
        infantCount := .int 0 }
    let c : NetCall := .post "/Availability" tok (some payload)
    match dr with
    | .netError => ⟨.error .netError, st1, cs ++ [c]⟩
    | .resp x =>
      if x.status ≥ 400 then ⟨.error .httpError, st1, cs ++ [c]⟩
      else ⟨.ok x, st1, cs ++ [c]⟩

/-! ## Spec-side definitions (written from the specification's words, for
comparison with the source-derived definitions above) -/

/-- The §3 invariant, as the spec words it: a session is valid iff a token is
present and (no expiry is recorded, or the current time is strictly before
the expiry). Presence of a token follows Python truthiness (an empty string
is what `not self.token` treats as no token). -/
def sessionValidSpec (st : TState) (now : Nat) : Prop :=
  (∃ s, st.token = some s ∧ s ≠ "") ∧
  (st.token_expiry = none ∨ ∃ e, st.token_expiry = some e ∧ now < e)

/-- Whether a `_login` outcome is a success (no exception escaped). -/
def isOkTok : Except PyErr String → Bool
  | .ok _ => true
  | .error _ => false

/-- The amended C10 claim, stated by its own cases: a saved token is adopted
exactly when the file is an object for the same agent whose token is truthy
and whose expiry is absent or parses to a future instant; a missing or
JSON-invalid file, a different agent, an expired or falsy token all leave the
fields absent; a non-object JSON top level raises `AttributeError` and an
unparseable expiry string raises `ValueError` out of the constructor. -/
def load_token_amended_spec (fs : FileState) (agent : String) (now : Nat) :
    Except PyErr TState :=
  match fs with
  | .missing => .ok ⟨none, none⟩
  | .badJson => .ok ⟨none, none⟩
  | .nonObject => .error .attributeError
  | .object d =>
    if d.agent_id = some agent then
      match d.expiry with
      | some .malformed => .error .valueError
      | some (.iso e) =>
        if truthy d.token && decide (now < e) then .ok ⟨d.token, some e⟩
        else .ok ⟨none, none⟩
      | none =>
        if truthy d.token then .ok ⟨d.token, none⟩ else .ok ⟨none, none⟩
    else .ok ⟨none, none⟩

/-! ## Helper lemmas -/

/-- With a truthy cached token whose expiry is ahead, `_get_token` is a pure
cache read: no state change, no network call. -/
theorem airGetToken_cached (st : AState) (now : Nat) (lr : LoginOutcome)
    (t : String) (e : Nat)
    (h0 : truthy st.hardcoded_token = false)
    (h1 : st.token = some t) (h2 : t ≠ "") (h3 : st.token_expiry = some e)
    (h4 : now < e) : airGetToken st now lr = ⟨.ok t, st, []⟩ := by
  have ht : truthy (some t) = true := by simp [truthy, h2]
  have hng : ¬ now ≥ e := by omega
  simp [airGetToken, h0, h1, ht, h3, hng]

/-- With a truthy cached token whose expiry is ahead, `ensure_authenticated`
succeeds without touching the network. -/
theorem ensure_cached (st : TState) (now : Nat) (lr : LoginOutcome)
    (t : String) (e : Nat)
    (h1 : st.token = some t) (h2 : t ≠ "") (h3 : st.token_expiry = some e)
    (h4 : now < e) : ensure_authenticated st now lr = ⟨true, st, []⟩ := by
  have ht : truthy (some t) = true := by simp [truthy, h2]
  have hng : ¬ now ≥ e := by omega
  simp [ensure_authenticated, h1, ht, h3, hng]

/-- `ensure_authenticated` issues either no call or exactly the login call. -/
theorem ensure_calls_cases (st : TState) (now : Nat) (r : LoginOutcome) :
    (ensure_authenticated st now r).calls = [] ∨
    (ensure_authenticated st now r).calls = [.login] := by
  unfold ensure_authenticated
  split
  · exact Or.inr rfl
  · split
    · split
      · exact Or.inr rfl
      · exact Or.inl rfl
    · exact Or.inl rfl

/-- The network trace of a dispatcher call is the trace of
`ensure_authenticated` followed by at most two data posts and no login. -/
theorem dispatch_calls_shape (st : TState) (now : Nat) (lr : LoginOutcome)
    (ep : String) (body : Option AvailPayload) (r1 r2 : DataOutcome) :
    ∃ tail : List NetCall,
      (make_authenticated_request st now lr ep body r1 r2).calls =
        (ensure_authenticated st now lr).calls ++ tail ∧
      dataCount tail ≤ 2 ∧ loginCount tail = 0 := by
  unfold make_authenticated_request
  by_cases hok : (!(ensure_authenticated st now lr).ok) = true
  · exact ⟨[], by simp [hok], by simp [dataCount], by simp [loginCount]⟩
  · cases r1 with
    | netError =>
      refine ⟨[.post ep ((ensure_authenticated st now lr).state.token.getD "") body],
        by simp [hok], by simp [dataCount], by simp [loginCount]⟩
    | resp x =>
      by_cases hx : isAuthFailResp x = true
      · cases r2 with
        | netError =>
          refine ⟨[.post ep ((ensure_authenticated st now lr).state.token.getD "") body,
            .post ep ("Bearer " ++ (ensure_authenticated st now lr).state.token.getD "") body],
            by simp [hok, hx], by simp [dataCount], by simp [loginCount]⟩
        | resp y =>
          refine ⟨[.post ep ((ensure_authenticated st now lr).state.token.getD "") body,
            .post ep ("Bearer " ++ (ensure_authenticated st now lr).state.token.getD "") body],
            by simp [hok, hx], by simp [dataCount], by simp [loginCount]⟩
      · refine ⟨[.post ep ((ensure_authenticated st now lr).state.token.getD "") body],
          by simp [hok, hx], by simp [dataCount], by simp [loginCount]⟩

/-- Data-call counts add over concatenated traces. -/
theorem dataCount_append (a b : List NetCall) :
    dataCount (a ++ b) = dataCount a + dataCount b := by
  simp [dataCount]

/-- Login-call counts add over concatenated traces. -/
theorem loginCount_append (a b : List NetCall) :
    loginCount (a ++ b) = loginCount a + loginCount b := by
  simp [loginCount]

/-- `ensure_authenticated` issues no data call. -/
theorem ensure_dataCount (st : TState) (now : Nat) (r : LoginOutcome) :
    dataCount (ensure_authenticated st now r).calls = 0 := by
  rcases ensure_calls_cases st now r with h | h <;> rw [h] <;> decide

/-- `ensure_authenticated` issues at most one login call. -/
theorem ensure_loginCount (st : TState) (now : Nat) (r : LoginOutcome) :
    loginCount (ensure_authenticated st now r).calls ≤ 1 := by
  rcases ensure_calls_cases st now r with h | h <;> rw [h] <;> decide

/-- The two pads have fixed widths. -/
theorem pad4_length (y : Nat) : (pad4 y).length = 4 := rfl

/-- The two pads have fixed widths. -/
theorem pad2_length (m : Nat) : (pad2 m).length = 2 := rfl

/-! ## Claim theorems -/

/-- C9: constructing an `AirIQClient` always fails. `__init__` reads
`Config.HARDCODED_TOKEN`, which the `Config` class never defines, so
`AirIQClient()` raises `AttributeError` in every environment (when
`API_BASE_URL` is unset it already fails at `None.rstrip`, also with
`AttributeError`); consequently no `AirIQClient` operation is reachable. -/
theorem c9_init_always_attribute_error (env : Env) :
    airIQInit env = .error .attributeError := by
  obtain ⟨sk, base, ag, us, pw⟩ := env
  cases base <;> rfl

/-- C3: a `TravelAPIClient` session validates exactly when a token is present
and (no expiry is recorded or the current time is strictly before it); and an
`AirIQClient` session whose expiry has passed is treated as unauthenticated:
`_get_token` on it performs exactly one fresh login and returns (and caches)
the token of that login. -/
theorem c3_session_validity (st : TState) (now : Nat)
    (ast : AState) (anow status : Nat) (j : LoginJson) (ft : String) (e : Nat)
    (h0 : truthy ast.hardcoded_token = false)
    (h1 : truthy ast.token = true)
    (h2 : ast.token_expiry = some e) (h3 : e ≤ anow)
    (h4 : status < 400) (h5 : j.token = some ft) (h6 : ft ≠ "") :
    (is_token_valid st now = true ↔ sessionValidSpec st now) ∧
    (airGetToken ast anow (.resp status (some j))).calls = [.login] ∧
    (airGetToken ast anow (.resp status (some j))).outcome = .ok ft ∧
    (airGetToken ast anow (.resp status (some j))).state.token = some ft := by
  constructor
  · obtain ⟨tok, ex⟩ := st
    cases tok with
    | none => simp [is_token_valid, truthy, sessionValidSpec]
    | some s =>
      cases ex with
      | none =>
        by_cases hs : s = "" <;>
          simp [is_token_valid, truthy, sessionValidSpec, hs]
      | some ee =>
        by_cases hs : s = "" <;>
          by_cases hlt : now < ee <;>
            simp [is_token_valid, truthy, sessionValidSpec, hs, hlt, Nat.not_lt]
  · have htft : truthy (some ft) = true := by simp [truthy, h6]
    have hnot : ¬ status ≥ 400 := by omega
    have hget : airGetToken ast anow (.resp status (some j)) =
        airLogin ast anow (.resp status (some j)) := by
      simp [airGetToken, h0, h1, h2, ge_iff_le, h3]
    rw [hget]
    simp [airLogin, h0, h5, htft, hnot]

/-- C2: with a (truthy) token cached and its expiry strictly ahead of `now`,
`_get_token` returns the cached token with no network call at all; and two
successive `_get_token` calls from the unauthenticated state, with the second
falling inside the 15-minute window opened by the first login, perform
exactly one login in total and both return that login's token. -/
theorem c2_cached_token_idempotent
    (st : AState) (now : Nat) (lr : LoginOutcome) (t : String) (e : Nat)
    (h0 : truthy st.hardcoded_token = false)
    (h1 : st.token = some t) (h2 : t ≠ "") (h3 : st.token_expiry = some e)
    (h4 : now < e)
    (st2 : AState) (t1 t2 status : Nat) (j : LoginJson) (ft : String)
    (lr2 : LoginOutcome)
    (g0 : st2.hardcoded_token = none) (g1 : st2.token = none)
    (g2 : status < 400) (g3 : j.token = some ft) (g4 : ft ≠ "")
    (g5 : t2 < t1 + 900 * usPerSecond) :
    airGetToken st now lr = ⟨.ok t, st, []⟩ ∧
    (airGetToken st2 t1 (.resp status (some j))).outcome = .ok ft ∧
    (airGetToken (airGetToken st2 t1 (.resp status (some j))).state t2 lr2).outcome
      = .ok ft ∧
    loginCount ((airGetToken st2 t1 (.resp status (some j))).calls ++
      (airGetToken (airGetToken st2 t1 (.resp status (some j))).state t2 lr2).calls)
      = 1 := by
  have hnotge : ¬ now ≥ e := by omega
  have ht : truthy (some t) = true := by simp [truthy, h2]
  have htft : truthy (some ft) = true := by simp [truthy, g4]
  have hnone : truthy (none : Option String) = false := rfl
  have hng2 : ¬ t2 ≥ t1 + 900 * usPerSecond := by omega
  have hfirst : airGetToken st2 t1 (.resp status (some j)) =
      ⟨.ok ft,
       { st2 with token := some ft,
                  token_expiry := some (t1 + 900 * usPerSecond) },
       [.login]⟩ := by
    have hng : ¬ status ≥ 400 := by omega
    simp [airGetToken, airLogin, g0, g1, hnone, g3, htft, hng]
  refine ⟨?_, ?_, ?_, ?_⟩
  · simp [airGetToken, h0, h1, ht, h3, hnotge]
  · rw [hfirst]
  · rw [hfirst]
    simp [airGetToken, g0, hnone, htft, hng2]
  · rw [hfirst]
    simp [airGetToken, g0, hnone, htft, hng2, loginCount]

/-- C7 (amended): for every non-empty token value, `set_token_manually`
returns True, issues no network call (in particular no login), stores the
token with the end-of-day expiry, and at any later instant strictly before
that expiry `ensure_authenticated` succeeds with the injected token in place
and still no network call. (An empty token value is also stored with no call,
but then the session does not validate — see the counterexample.) -/
theorem c7_manual_token_bypasses_login (t : Nat) (tok : String)
    (h : tok ≠ "") :
    (set_token_manually t tok).ok = true ∧
    (set_token_manually t tok).calls = [] ∧
    (set_token_manually t tok).state = ⟨some tok, some (endOfDay t)⟩ ∧
    ∀ (t2 : Nat) (lr : LoginOutcome), t2 < endOfDay t →
      ensure_authenticated (set_token_manually t tok).state t2 lr =
        ⟨true, ⟨some tok, some (endOfDay t)⟩, []⟩ := by
  refine ⟨rfl, rfl, rfl, ?_⟩
  intro t2 lr h2
  exact ensure_cached _ t2 lr tok (endOfDay t) rfl h rfl h2

/-- C7 witness: a concrete manual token injection at time 0, queried at
time 5. -/
theorem c7_witness :
    (set_token_manually 0 "TOK").ok = true ∧
    ensure_authenticated (set_token_manually 0 "TOK").state 5 .netError =
      ⟨true, ⟨some "TOK", some (endOfDay 0)⟩, []⟩ :=
  ⟨(c7_manual_token_bypasses_login 0 "TOK" (by decide)).1,
   (c7_manual_token_bypasses_login 0 "TOK" (by decide)).2.2.2 5 .netError
     (by decide)⟩

/-- C7 counterexample: the claim quantifies over every token value, but
injecting the empty string reports success while leaving a session that does
not validate, so a subsequent `ensure_authenticated` performs a login instead
of returning the injected token. -/
theorem c7_counterexample :
    (set_token_manually 0 "").ok = true ∧
    is_token_valid (set_token_manually 0 "").state 5 = false ∧
    (ensure_authenticated (set_token_manually 0 "").state 5 .netError).calls =
      [.login] := by decide

/-- C5 (amended): when a login is attempted from an unauthenticated session
and fails (`authenticate` returns False), the session still does not validate
afterwards, the expiry field is untouched, and the token field is either
untouched or holds the falsy (absent or empty) token value of the failed
response — the one deviation from the claim being that an empty-string token
taken from a failed response is left stored rather than cleared, and failure
is surfaced as a False return value rather than a typed AuthenticationError. -/
theorem c5_failed_login_leaves_unauthenticated
    (st : TState) (now : Nat) (r : LoginOutcome)
    (hpre : is_token_valid st now = false)
    (hfail : (authenticate st now r).ok = false) :
    is_token_valid (authenticate st now r).state now = false ∧
    (authenticate st now r).state.token_expiry = st.token_expiry ∧
    ((authenticate st now r).state.token = st.token ∨
      truthy (authenticate st now r).state.token = false) := by
  cases r with
  | netError => simp [authenticate, hpre]
  | resp status body =>
    by_cases h200 : status = 200
    · subst h200
      cases body with
      | none => simp [authenticate, hpre]
      | some d =>
        by_cases hrc : d.resultCode = some "1"
        · by_cases htk : truthy d.token = true
          · exfalso
            simp [authenticate, hrc, htk] at hfail
          · have htk' : truthy d.token = false := by
              simpa using htk
            simp [authenticate, hrc, htk', is_token_valid, hpre]
        · simp [authenticate, hrc, hpre]
    · simp [authenticate, h200, hpre]

/-- C5 witness: a concrete failing login (HTTP 500) from the empty session
leaves it unauthenticated with both fields untouched. -/
theorem c5_witness :
    is_token_valid (authenticate ⟨none, none⟩ 10 (.resp 500 none)).state 10
      = false ∧
    (authenticate ⟨none, none⟩ 10 (.resp 500 none)).state.token_expiry =
      (⟨none, none⟩ : TState).token_expiry ∧
    ((authenticate ⟨none, none⟩ 10 (.resp 500 none)).state.token =
      (⟨none, none⟩ : TState).token ∨
      truthy (authenticate ⟨none, none⟩ 10 (.resp 500 none)).state.token =
        false) :=
  c5_failed_login_leaves_unauthenticated ⟨none, none⟩ 10 (.resp 500 none)
    (by decide) (by decide)

/-- C5 counterexample: an HTTP-200 response with the success indicator but an
empty `Token` field is a failed login (returns False), yet the token field is
left holding the empty token taken from that failed response, which the claim
prohibits. -/
theorem c5_counterexample :
    authenticate ⟨none, none⟩ 10 (.resp 200 (some ⟨some "1", some ""⟩)) =
      ⟨false, ⟨some "", none⟩⟩ := by decide

/-- C4 (amended): `TravelAPIClient.authenticate` treats a login response as a
success exactly when the transport status is 200, the body parses, its
`Status.ResultCode` is `"1"` and its `Token` field is non-empty; but
`AirIQClient._login` (on its network path) succeeds exactly when the
transport status is below 400 and the body carries a non-empty `Token` —
it never examines the status indicator. -/
theorem c4_login_success_criteria
    (st : TState) (now : Nat) (r : LoginOutcome)
    (ast : AState) (anow : Nat) (ar : LoginOutcome)
    (h0 : ast.hardcoded_token = none) :
    ((authenticate st now r).ok = true ↔
      ∃ d, r = .resp 200 (some d) ∧ d.resultCode = some "1" ∧
        truthy d.token = true) ∧
    (isOkTok (airLogin ast anow ar).outcome = true ↔
      ∃ s j, ar = .resp s (some j) ∧ s < 400 ∧ truthy j.token = true) := by
  have hnone : truthy (none : Option String) = false := rfl
  constructor
  · cases r with
    | netError => simp [authenticate]
    | resp status body =>
      by_cases h200 : status = 200
      · subst h200
        cases body with
        | none => simp [authenticate]
        | some d =>
          by_cases hrc : d.resultCode = some "1"
          · by_cases htk : truthy d.token = true
            · simp [authenticate, hrc, htk]
            · have htk' : truthy d.token = false := by simpa using htk
              simp [authenticate, hrc, htk']
          · simp [authenticate, hrc]
      · simp [authenticate, h200]
  · cases ar with
    | netError => simp [airLogin, h0, hnone, isOkTok]
    | resp s body =>
      by_cases hs : s ≥ 400
      · have hnl : ¬ s < 400 := by omega
        simp only [airLogin, h0, hnone, Bool.false_eq_true, if_false, hs,
          if_true, isOkTok]
        constructor
        · intro h
          exact h.elim
        · rintro ⟨s', j', h', hlt', _⟩
          cases h'
          exact absurd hlt' hnl
      · have hlt : s < 400 := by omega
        cases body with
        | none => simp [airLogin, h0, hnone, hs, isOkTok]
        | some j =>
          by_cases htk : truthy j.token = true
          · simp only [airLogin, h0, hnone, Bool.false_eq_true, if_false, hs,
              isOkTok]
            simp only [htk, if_true]
            constructor
            · intro _
              exact ⟨s, j, rfl, hlt, htk⟩
            · intro _
              trivial
          · have htk' : truthy j.token = false := by simpa using htk
            simp [airLogin, h0, hnone, hs, htk', isOkTok]

/-- C4 witness: a concrete successful `authenticate` (status 200, ResultCode
"1", non-empty token) and a concrete successful `_login`. -/
theorem c4_witness :
    ((authenticate ⟨none, none⟩ 0 (.resp 200 (some ⟨some "1", some "W"⟩))).ok
        = true ↔
      ∃ d, (LoginOutcome.resp 200 (some ⟨some "1", some "W"⟩)) =
          .resp 200 (some d) ∧ d.resultCode = some "1" ∧
        truthy d.token = true) ∧
    (isOkTok (airLogin ⟨"", none, none, none, none, none, none⟩ 0
        (.resp 200 (some ⟨some "1", some "W"⟩))).outcome = true ↔
      ∃ s j, (LoginOutcome.resp 200 (some ⟨some "1", some "W"⟩)) =
          .resp s (some j) ∧ s < 400 ∧ truthy j.token = true) :=
  c4_login_success_criteria ⟨none, none⟩ 0
    (.resp 200 (some ⟨some "1", some "W"⟩))
    ⟨"", none, none, none, none, none, none⟩ 0
    (.resp 200 (some ⟨some "1", some "W"⟩)) rfl

/-- C4 counterexample: an HTTP-200 login response whose status indicator is
negative (`ResultCode` `"0"`) but which carries a token is accepted and
cached by `AirIQClient._login`, contradicting the claim that a negative
status indicator is treated as a login failure. -/
theorem c4_counterexample :
    (airLogin ⟨"", none, none, none, none, none, none⟩ 0
        (.resp 200 (some ⟨some "0", some "TKN"⟩))).outcome = .ok "TKN" ∧
    (airLogin ⟨"", none, none, none, none, none, none⟩ 0
        (.resp 200 (some ⟨some "0", some "TKN"⟩))).state.token = some "TKN" :=
  ⟨rfl, rfl⟩

/-- C2 witness: a concrete cached-token read and a concrete two-call
sequence (login at time 0, cached read at time 100). -/
theorem c2_witness :
    airGetToken ⟨"", none, none, none, none, some "T", some 10⟩ 5 .netError =
      ⟨.ok "T", ⟨"", none, none, none, none, some "T", some 10⟩, []⟩ ∧
    (airGetToken ⟨"", none, none, none, none, none, none⟩ 0
        (.resp 200 (some ⟨none, some "F"⟩))).outcome = .ok "F" ∧
    (airGetToken (airGetToken ⟨"", none, none, none, none, none, none⟩ 0
        (.resp 200 (some ⟨none, some "F"⟩))).state 100 .netError).outcome =
      .ok "F" ∧
    loginCount ((airGetToken ⟨"", none, none, none, none, none, none⟩ 0
        (.resp 200 (some ⟨none, some "F"⟩))).calls ++
      (airGetToken (airGetToken ⟨"", none, none, none, none, none, none⟩ 0
        (.resp 200 (some ⟨none, some "F"⟩))).state 100 .netError).calls) = 1 :=
  c2_cached_token_idempotent ⟨"", none, none, none, none, some "T", some 10⟩
    5 .netError "T" 10 (by decide) rfl (by decide) rfl (by decide)
    ⟨"", none, none, none, none, none, none⟩ 0 100 200 ⟨none, some "F"⟩ "F"
    .netError rfl rfl (by decide) rfl (by decide) (by decide)

/-- C3 witness: the validity characterization at a concrete session, and a
concrete expired session (expiry 10, now 20) performing its single fresh
login. -/
theorem c3_witness :
    (is_token_valid ⟨some "X", none⟩ 0 = true ↔
      sessionValidSpec ⟨some "X", none⟩ 0) ∧
    (airGetToken ⟨"", none, none, none, none, some "OLD", some 10⟩ 20
      (.resp 200 (some ⟨some "1", some "NEW"⟩))).calls = [.login] ∧
    (airGetToken ⟨"", none, none, none, none, some "OLD", some 10⟩ 20
      (.resp 200 (some ⟨some "1", some "NEW"⟩))).outcome = .ok "NEW" ∧
    (airGetToken ⟨"", none, none, none, none, some "OLD", some 10⟩ 20
      (.resp 200 (some ⟨some "1", some "NEW"⟩))).state.token = some "NEW" :=
  c3_session_validity ⟨some "X", none⟩ 0
    ⟨"", none, none, none, none, some "OLD", some 10⟩ 20 200
    ⟨some "1", some "NEW"⟩ "NEW" 10 (by decide) (by decide) rfl (by decide)
    (by decide) rfl (by decide)

/-- C1 (amended): on an authorization failure (HTTP 401 or a timed-out body)
of the first data call made with a valid cached token, the dispatcher retries
exactly once using the **same** token in `Bearer` scheme — it performs no
session invalidation and no re-login — and returns the second outcome; and
in every case a dispatcher invocation makes at most two outbound data calls
and at most one login call. -/
theorem c1_bearer_retry_no_relogin
    (st : TState) (now : Nat) (lr : LoginOutcome) (ep : String)
    (body : Option AvailPayload) (x y : DataResp) (t : String) (e : Nat)
    (h1 : st.token = some t) (h2 : t ≠ "") (h3 : st.token_expiry = some e)
    (h4 : now < e) (hx : isAuthFailResp x = true)
    (st' : TState) (now' : Nat) (lr' : LoginOutcome) (ep' : String)
    (body' : Option AvailPayload) (r1 r2 : DataOutcome) :
    make_authenticated_request st now lr ep body (.resp x) (.resp y) =
      ⟨some y, st, [.post ep t body, .post ep ("Bearer " ++ t) body]⟩ ∧
    dataCount (make_authenticated_request st' now' lr' ep' body' r1 r2).calls
      ≤ 2 ∧
    loginCount (make_authenticated_request st' now' lr' ep' body' r1 r2).calls
      ≤ 1 := by
  obtain ⟨tail, hcalls, hd, hl⟩ :=
    dispatch_calls_shape st' now' lr' ep' body' r1 r2
  refine ⟨?_, ?_, ?_⟩
  · have he := ensure_cached st now lr t e h1 h2 h3 h4
    simp [make_authenticated_request, he, h1, hx]
  · rw [hcalls, dataCount_append, ensure_dataCount]
    omega
  · rw [hcalls, loginCount_append, hl]
    have := ensure_loginCount st' now' lr'
    omega

/-- C1 witness: a concrete dispatch whose first response is a 401 and whose
Bearer retry succeeds. -/
theorem c1_witness :
    make_authenticated_request ⟨some "TOK123", some 100⟩ 50 .netError "/Pricing"
        none (.resp ⟨401, false⟩) (.resp ⟨200, false⟩) =
      ⟨some ⟨200, false⟩, ⟨some "TOK123", some 100⟩,
       [.post "/Pricing" "TOK123" none,
        .post "/Pricing" ("Bearer " ++ "TOK123") none]⟩ ∧
    dataCount (make_authenticated_request ⟨some "TOK123", some 100⟩ 50
      .netError "/Pricing" none (.resp ⟨401, false⟩)
      (.resp ⟨200, false⟩)).calls ≤ 2 ∧
    loginCount (make_authenticated_request ⟨some "TOK123", some 100⟩ 50
      .netError "/Pricing" none (.resp ⟨401, false⟩)
      (.resp ⟨200, false⟩)).calls ≤ 1 :=
  c1_bearer_retry_no_relogin ⟨some "TOK123", some 100⟩ 50 .netError "/Pricing"
    none ⟨401, false⟩ ⟨200, false⟩ "TOK123" 100 rfl (by decide) rfl (by decide)
    (by decide) ⟨some "TOK123", some 100⟩ 50 .netError "/Pricing" none
    (.resp ⟨401, false⟩) (.resp ⟨200, false⟩)

/-- C1 counterexample: on a first-response 401 with a valid cached token, the
dispatcher performs **zero** login calls (the claim requires exactly one
re-login), leaves the session untouched (no invalidation), and the retry
carries the original token in Bearer form rather than a new token. -/
theorem c1_counterexample :
    make_authenticated_request ⟨some "TOK123", some 100⟩ 50 .netError "/Book"
        none (.resp ⟨401, false⟩) (.resp ⟨200, false⟩) =
      ⟨some ⟨200, false⟩, ⟨some "TOK123", some 100⟩,
       [.post "/Book" "TOK123" none, .post "/Book" "Bearer TOK123" none]⟩ ∧
    loginCount (make_authenticated_request ⟨some "TOK123", some 100⟩ 50
      .netError "/Book" none (.resp ⟨401, false⟩)
      (.resp ⟨200, false⟩)).calls = 0 := by decide

/-- C6 (amended): with a session holding `TOK123`, the scenario call issues
exactly one POST to `/Availability` with `FlightDate="20251015"`, the given
stations, the integer `AdultCount` 1, and `TOK123` as the authorization
value; in general `AirIQClient.availability` serializes the date
deterministically to the fixed 8-digit form but passes station codes through
**unchanged** (no uppercasing) and forwards any integer passenger count
(negative included) unvalidated, while `TravelAPIClient.search_availability`
uppercases the stations but stringifies the passenger counts. -/
theorem c6_availability_request_shape
    (ast : AState) (anow : Nat) (lr : LoginOutcome)
    (origin destination : String) (y m d : Nat) (adults : Int)
    (dr : DataOutcome) (t : String) (e : Nat)
    (h0 : truthy ast.hardcoded_token = false)
    (h1 : ast.token = some t) (h2 : t ≠ "")
    (h3 : ast.token_expiry = some e) (h4 : anow < e)
    (tst : TState) (tnow : Nat) (tlr : LoginOutcome)
    (aId uN dep arr fd tt cb ftp : String) (dOnly : Bool)
    (ac cc ic : Int) (r1 r2 : DataOutcome) (tt2 : String) (te : Nat)
    (k1 : tst.token = some tt2) (k2 : tt2 ≠ "")
    (k3 : tst.token_expiry = some te) (k4 : tnow < te) :
    (availability ⟨"", some "A1", some "U1", none, none, some "TOK123",
        some 100⟩ 50 .netError "DEL" "BOM" 2025 10 15 1
        (.resp ⟨200, false⟩)).calls =
      [.post "/Availability" "TOK123" (some
        ⟨"A1", "U1", "O", "DEL", "BOM", "20251015", "E", "N", false,
         .int 1, .int 0, .int 0⟩)] ∧
    (availability ast anow lr origin destination y m d adults dr).calls =
      [.post "/Availability" t (some
        ⟨ast.agent_id.getD "", ast.username.getD "", "O", origin, destination,
         strftimeYmd y m d, "E", "N", false, .int adults, .int 0, .int 0⟩)] ∧
    (strftimeYmd y m d).length = 8 ∧
    (search_availability tst tnow tlr aId uN dep arr fd tt cb ftp dOnly
        ac cc ic r1 r2).calls.head? =
      some (.post "/Availability" tt2 (some
        ⟨aId, uN, tt, pyUpper dep, pyUpper arr, fd, pyUpper cb, pyUpper ftp,
         dOnly, .str (toString ac), .str (toString cc),
         .str (toString ic)⟩)) := by
  refine ⟨by decide, ?_, ?_, ?_⟩
  · have hg := airGetToken_cached ast anow lr t e h0 h1 h2 h3 h4
    cases dr with
    | netError => simp [availability, hg]
    | resp xr =>
      by_cases hx : xr.status ≥ 400 <;> simp [availability, hg, hx]
  · simp [strftimeYmd, String.length_append, pad4_length, pad2_length]
  · have he := ensure_cached tst tnow tlr tt2 te k1 k2 k3 k4
    cases r1 with
    | netError => simp [search_availability, make_authenticated_request, he, k1]
    | resp xr =>
      by_cases hx : isAuthFailResp xr = true
      · cases r2 with
        | netError =>
          simp [search_availability, make_authenticated_request, he, k1, hx]
        | resp yr =>
          simp [search_availability, make_authenticated_request, he, k1, hx]
      · simp [search_availability, make_authenticated_request, he, k1, hx]

/-- C6 witness: the amended theorem at concrete inputs, including a
lower-case origin and a negative adult count being forwarded verbatim. -/
theorem c6_witness :
    (availability ⟨"", some "A1", some "U1", none, none, some "TOK123",
        some 100⟩ 50 .netError "DEL" "BOM" 2025 10 15 1
        (.resp ⟨200, false⟩)).calls =
      [.post "/Availability" "TOK123" (some
        ⟨"A1", "U1", "O", "DEL", "BOM", "20251015", "E", "N", false,
         .int 1, .int 0, .int 0⟩)] ∧
    (availability ⟨"", some "A1", some "U1", none, none, some "T", some 9⟩
        5 .netError "del" "bom" 2024 1 2 (-3) (.resp ⟨200, false⟩)).calls =
      [.post "/Availability" "T" (some
        ⟨"A1", "U1", "O", "del", "bom", strftimeYmd 2024 1 2, "E", "N", false,
         .int (-3), .int 0, .int 0⟩)] ∧
    (strftimeYmd 2024 1 2).length = 8 ∧
    (search_availability ⟨some "TT", some 9⟩ 5 .netError "A1" "U1" "del" "bom"
        "20240102" "O" "e" "n" false 2 0 0 (.resp ⟨200, false⟩)
        (.resp ⟨200, false⟩)).calls.head? =
      some (.post "/Availability" "TT" (some
        ⟨"A1", "U1", "O", pyUpper "del", pyUpper "bom", "20240102",
         pyUpper "e", pyUpper "n", false, .str (toString (2 : Int)),
         .str (toString (0 : Int)), .str (toString (0 : Int))⟩)) :=
  c6_availability_request_shape
    ⟨"", some "A1", some "U1", none, none, some "T", some 9⟩ 5 .netError
    "del" "bom" 2024 1 2 (-3) (.resp ⟨200, false⟩) "T" 9 (by decide) rfl
    (by decide) rfl (by decide) ⟨some "TT", some 9⟩ 5 .netError "A1" "U1"
    "del" "bom" "20240102" "O" "e" "n" false 2 0 0 (.resp ⟨200, false⟩)
    (.resp ⟨200, false⟩) "TT" 9 rfl (by decide) rfl (by decide)

/-- C6 counterexample: `AirIQClient.availability` does not normalize station
codes — a lower-case origin `"del"` is embedded verbatim in the outbound
body, so the claim's universally quantified normalization clause fails. -/
theorem c6_counterexample :
    (availability ⟨"", some "A1", some "U1", none, none, some "TOK123",
        some 100⟩ 50 .netError "del" "BOM" 2025 10 15 1
        (.resp ⟨200, false⟩)).calls =
      [.post "/Availability" "TOK123" (some
        ⟨"A1", "U1", "O", "del", "BOM", "20251015", "E", "N", false,
         .int 1, .int 0, .int 0⟩)] ∧
    pyUpper "del" = "DEL" ∧ "del" ≠ "DEL" := by decide

/-- C8 (amended): no input validation exists: even with an empty departure
station code the availability operation issues its single outbound POST,
embedding the empty code verbatim in the body; nothing is rejected before
the network call. -/
theorem c8_empty_station_not_rejected
    (ast : AState) (anow : Nat) (lr : LoginOutcome)
    (destination : String) (y m d : Nat) (adults : Int) (dr : DataOutcome)
    (t : String) (e : Nat)
    (h0 : truthy ast.hardcoded_token = false)
    (h1 : ast.token = some t) (h2 : t ≠ "")
    (h3 : ast.token_expiry = some e) (h4 : anow < e) :
    dataCount (availability ast anow lr "" destination y m d adults dr).calls
      = 1 ∧
    (availability ast anow lr "" destination y m d adults dr).calls.head? =
      some (.post "/Availability" t (some
        ⟨ast.agent_id.getD "", ast.username.getD "", "O", "", destination,
         strftimeYmd y m d, "E", "N", false, .int adults, .int 0,
         .int 0⟩)) := by
  have hg := airGetToken_cached ast anow lr t e h0 h1 h2 h3 h4
  cases dr with
  | netError => simp [availability, hg, dataCount, List.countP_cons]
  | resp xr =>
    by_cases hx : xr.status ≥ 400 <;>
      simp [availability, hg, hx, dataCount, List.countP_cons]

/-- C8 witness: the amended theorem at a concrete session and input. -/
theorem c8_witness :
    dataCount (availability ⟨"", some "A1", some "U1", none, none,
      some "TOK123", some 100⟩ 50 .netError "" "BOM" 2025 10 15 1
      (.resp ⟨200, false⟩)).calls = 1 ∧
    (availability ⟨"", some "A1", some "U1", none, none, some "TOK123",
        some 100⟩ 50 .netError "" "BOM" 2025 10 15 1
        (.resp ⟨200, false⟩)).calls.head? =
      some (.post "/Availability" "TOK123" (some
        ⟨"A1", "U1", "O", "", "BOM", strftimeYmd 2025 10 15, "E", "N", false,
         .int 1, .int 0, .int 0⟩)) :=
  c8_empty_station_not_rejected
    ⟨"", some "A1", some "U1", none, none, some "TOK123", some 100⟩ 50
    .netError "BOM" 2025 10 15 1 (.resp ⟨200, false⟩) "TOK123" 100
    (by decide) rfl (by decide) rfl (by decide)

/-- C8 counterexample: the claim says no outbound request is issued for an
empty station code, but the call with origin `""` issues its POST with the
empty code in the body. -/
theorem c8_counterexample :
    (availability ⟨"", some "A1", some "U1", none, none, some "TOK123",
        some 100⟩ 50 .netError "" "BOM" 2025 10 15 1
        (.resp ⟨200, false⟩)).calls =
      [.post "/Availability" "TOK123" (some
        ⟨"A1", "U1", "O", "", "BOM", "20251015", "E", "N", false,
         .int 1, .int 0, .int 0⟩)] ∧
    (availability ⟨"", some "A1", some "U1", none, none, some "TOK123",
        some 100⟩ 50 .netError "" "BOM" 2025 10 15 1
        (.resp ⟨200, false⟩)).calls ≠ [] := by decide

/-- C10 (amended): the constructor-time token load adopts the saved token
exactly when the file is a JSON object for the same agent whose token is
non-empty and whose expiry is absent or parses to a future instant; a
missing file, invalid JSON, a different agent, or an expired (or falsy)
token leave both fields absent; but a JSON file whose top level is not an
object raises an uncaught `AttributeError`, and an expiry string
`datetime.fromisoformat` cannot parse raises an uncaught `ValueError` out of
the constructor. -/
theorem c10_load_token_characterized (fs : FileState) (agent : String)
    (now : Nat) :
    load_token fs agent now = load_token_amended_spec fs agent now := by
  cases fs with
  | missing => rfl
  | badJson => rfl
  | nonObject => rfl
  | object d =>
    obtain ⟨aid, tok, exp⟩ := d
    by_cases ha : aid = some agent
    · cases exp with
      | none =>
        by_cases htk : truthy tok = true
        · simp [load_token, load_token_amended_spec, ha, is_token_valid, htk]
        · have htk' : truthy tok = false := by simpa using htk
          simp [load_token, load_token_amended_spec, ha, is_token_valid, htk']
      | some es =>
        cases es with
        | malformed => simp [load_token, load_token_amended_spec, ha]
        | iso te =>
          by_cases htk : truthy tok = true
          · by_cases hlt : now < te
            · have : ¬ now ≥ te := by omega
              simp [load_token, load_token_amended_spec, ha, is_token_valid,
                htk, hlt, this]
            · have : now ≥ te := by omega
              simp [load_token, load_token_amended_spec, ha, is_token_valid,
                htk, hlt, this]
          · have htk' : truthy tok = false := by simpa using htk
            simp [load_token, load_token_amended_spec, ha, is_token_valid,
              htk']
    · simp [load_token, load_token_amended_spec, ha]

/-- C10 counterexample: a well-formed JSON object for the same agent whose
`expiry` string `datetime.fromisoformat` cannot parse makes the constructor
raise `ValueError` instead of starting with both fields absent, as the claim
requires for malformed files. -/
theorem c10_counterexample :
    load_token (.object ⟨some "A1", some "T", some .malformed⟩) "A1" 5 =
      .error .valueError := rfl

end AirIQ
